import Mathlib

/-!
Verification of the salaries-and-layoffs report pipeline.

The repository holds two near-duplicate scripts, `src/project_gm.py` and
`src/project_gp.py`.  Each loads two CSV tables (`layoffs.csv`,
`jobs_in_data.csv`), cleans them, computes grouped aggregates and renders
charts and a slide deck.  This file shallowly embeds the load/clean/aggregate
stages of both scripts: tables are lists of records, pandas `NaN` cells are
`Option.none`, numeric columns are `ℚ`, the pandas `groupby` key order is
modelled as first-occurrence order of the keys (the claims under study do not
depend on the ascending key order pandas uses), and the pandas date parser
(`pd.to_datetime`'s cell-level parsing) is an explicit function parameter
since it is library code, not repository code.
-/

/-- One row of `jobs_in_data.csv`, restricted to the columns the scripts
read.  A missing `salary_in_usd` cell is `none`. -/
structure JobRecord where
  work_year : Int
  job_category : String
  experience_level : String
  work_setting : String
  company_size : String
  employee_residence : String
  salary_in_usd : Option ℚ
deriving DecidableEq

/-- One raw row of `layoffs.csv`, before date parsing.  The `date` cell is
the raw text (`none` for an empty cell); numeric cells are `none` when
missing. -/
structure RawLayoffRow where
  company : String
  industry : String
  country : String
  stage : String
  date : Option String
  total_laid_off : Option ℚ
  percentage_laid_off : Option ℚ
  funds_raised : Option ℚ
deriving DecidableEq

/-- A layoffs row after `pd.to_datetime`: the date is a `(year, month)` pair
(the scripts only consume `dt.year`, `dt.month` and `to_period("M")`, all
determined by year and month), `none` standing for `NaT`. -/
structure LayoffRow where
  company : String
  industry : String
  country : String
  stage : String
  date : Option (Int × Int)
  total_laid_off : Option ℚ
  percentage_laid_off : Option ℚ
  funds_raised : Option ℚ
deriving DecidableEq

/-- Characters remaining after dropping a leading run of whitespace. -/
def dropLeadingWs : List Char → List Char
  | [] => []
  | c :: rest => if c.isWhitespace then dropLeadingWs rest else c :: rest

/-- Python `str.strip()` on the values the scripts clean: whitespace
dropped from both ends. -/
def pyStrip (s : String) : String :=
  String.mk ((dropLeadingWs (dropLeadingWs s.data).reverse).reverse)

/-- Character-by-character engine of Python `str.title()`: a letter not
preceded by a letter is uppercased, any other letter is lowercased. -/
def titleCaseGo : Bool → List Char → List Char
  | _, [] => []
  | prevAlpha, c :: cs =>
      let c' := if c.isAlpha then (if prevAlpha then c.toLower else c.toUpper) else c
      c' :: titleCaseGo c.isAlpha cs

/-- Python `str.title()`. -/
def pyTitle (s : String) : String := String.mk (titleCaseGo false s.data)

/-- `clean_labels` of `project_gm.py` (lines 45-47): strip then title-case
one categorical column value. -/
def clean_labels (s : String) : String := pyTitle (pyStrip s)

/-- The experience-level `replace` map of `project_gm.py` line 57. -/
def gm_exp_replace (s : String) : String :=
  if s = "En" then "Entry-Level"
  else if s = "Mi" then "Mid-Level"
  else if s = "Se" then "Senior"
  else if s = "Ex" then "Executive"
  else s

/-- `exp_order` of `project_gm.py` line 54. -/
def gm_exp_order : List String := ["Entry-Level", "Mid-Level", "Senior", "Executive"]

/-- Jobs cleaning of `project_gm.py` lines 41-57: drop rows with missing
`salary_in_usd`, then strip+title-case `job_category`, `experience_level`
and `work_setting`, then apply the abbreviation replace map to
`experience_level`. -/
def gm_clean_jobs (t : List JobRecord) : List JobRecord :=
  (t.filter (fun r => r.salary_in_usd.isSome)).map (fun r =>
    { r with
      job_category := clean_labels r.job_category
      experience_level := gm_exp_replace (clean_labels r.experience_level)
      work_setting := clean_labels r.work_setting })

/-- A jobs row of `project_gp.py` after preprocessing (lines 29-35): the
`*_clean` columns are stripped copies of the originals. -/
structure GpJobRecord where
  work_year : Int
  salary_in_usd : Option ℚ
  employee_residence : String
  job_category_clean : String
  experience_level_clean : String
  work_setting_clean : String
  company_size_clean : String
deriving DecidableEq

/-- Jobs cleaning of `project_gp.py` lines 29-35: drop rows with missing
`salary_in_usd` and add stripped copies of the categorical columns (no
title-casing). -/
def gp_clean_jobs (t : List JobRecord) : List GpJobRecord :=
  (t.filter (fun r => r.salary_in_usd.isSome)).map (fun r =>
    { work_year := r.work_year
      salary_in_usd := r.salary_in_usd
      employee_residence := r.employee_residence
      job_category_clean := pyStrip r.job_category
      experience_level_clean := pyStrip r.experience_level
      work_setting_clean := pyStrip r.work_setting
      company_size_clean := pyStrip r.company_size })

/-- `exp_order` of `project_gp.py` line 220. -/
def gp_exp_order : List String := ["Entry-level", "Mid-level", "Senior", "Executive"]

/-- The `pd.Categorical(..., categories=exp_order)` conversion of
`project_gp.py` lines 221-225: a value outside the category list becomes
missing (`NaN`). -/
def gp_categorical_exp (s : String) : Option String :=
  if s ∈ gp_exp_order then some s else none

/-!
Grouping and sorting primitives shared by both scripts' aggregates.
-/

/-- Distinct keys of a table under a key function, in first-occurrence
order (models the key set of a pandas `groupby`). -/
def keysOf {α κ : Type} [DecidableEq κ] (key : α → κ) (t : List α) : List κ :=
  (t.map key).dedup

/-- Rows of a table carrying a given key (one `groupby` group). -/
def groupRows {α κ : Type} [DecidableEq κ] (key : α → κ) (t : List α) (k : κ) : List α :=
  t.filter (fun a => decide (key a = k))

/-- Pandas `groupby(key)[col].sum()`: for each distinct key, the sum of the
column with missing cells skipped (an all-missing group sums to 0, the
pandas default `min_count=0`). -/
def groupSum {α κ : Type} [DecidableEq κ] (key : α → κ) (val : α → Option ℚ)
    (t : List α) : List (κ × ℚ) :=
  (keysOf key t).map (fun k => (k, ((groupRows key t k).filterMap val).sum))

/-- Pandas `Series.median()` over the non-missing values: midpoint of the
two middle elements of the sorted list (0 for an empty list, where pandas
yields `NaN`; the scripts only take medians of nonempty groups). -/
def pandasMedian (l : List ℚ) : ℚ :=
  let s := List.insertionSort (· ≤ ·) l
  let n := s.length
  if n = 0 then 0
  else if n % 2 = 1 then s.getD (n / 2) 0
  else (s.getD (n / 2 - 1) 0 + s.getD (n / 2) 0) / 2

/-- Pandas `groupby(key)[col].median()` with missing cells skipped. -/
def groupMedian {α κ : Type} [DecidableEq κ] (key : α → κ) (val : α → Option ℚ)
    (t : List α) : List (κ × ℚ) :=
  (keysOf key t).map (fun k => (k, pandasMedian ((groupRows key t k).filterMap val)))

/-- Descending comparison on the value component of a keyed aggregate,
the order used by `sort_values(ascending=False)`. -/
def valGe {κ : Type} (a b : κ × ℚ) : Prop := b.2 ≤ a.2

instance {κ : Type} : DecidableRel (valGe (κ := κ)) := fun a b => by
  unfold valGe; infer_instance

instance {κ : Type} : IsTotal (κ × ℚ) valGe :=
  ⟨fun a b => le_total b.2 a.2⟩

instance {κ : Type} : IsTrans (κ × ℚ) valGe :=
  ⟨fun _ _ _ h h' => le_trans h' h⟩

/-- `sort_values(ascending=False)` on a keyed numeric aggregate. -/
def sortValsDesc {κ : Type} (l : List (κ × ℚ)) : List (κ × ℚ) :=
  List.insertionSort valGe l

/-- Pandas `value_counts()`: count of rows per distinct key, sorted by
count descending. -/
def valueCounts {α κ : Type} [DecidableEq κ] (key : α → κ) (t : List α) :
    List (κ × ℚ) :=
  sortValsDesc ((keysOf key t).map (fun k => (k, ((groupRows key t k).length : ℚ))))

/-!
Layoffs aggregates.  `project_gm.py` lines 72-118, `project_gp.py`
lines 52-190.  The column `total_laid_off` is summed with `none` skipped.
-/

/-- Monthly layoffs trend (`project_gm.py` line 72): group by the
year-month bucket (the `NaT` bucket is the key `none`) and sum
`total_laid_off`.  The trailing `.dropna()` of the script drops nothing
because grouped sums are never missing. -/
def gm_monthly_layoffs (L : List LayoffRow) : List (Option (Int × Int) × ℚ) :=
  groupSum (fun r => r.date) (fun r => r.total_laid_off) L

/-- Yearly layoffs (`project_gm.py` line 82): pandas drops the `NaN` year
key, so only rows with a parsed date contribute groups. -/
def gm_yearly_layoffs (L : List LayoffRow) : List (Int × ℚ) :=
  groupSum (fun r => r.1) (fun r => r.2)
    (L.filterMap (fun r => r.date.map (fun d => (d.1, r.total_laid_off))))

/-- Top 15 companies by summed layoffs (`project_gm.py` line 90). -/
def gm_top_companies (L : List LayoffRow) : List (String × ℚ) :=
  (sortValsDesc (groupSum (fun r => r.company) (fun r => r.total_laid_off) L)).take 15

/-- Top 12 industries by summed layoffs (`project_gm.py` line 98). -/
def gm_ind_layoffs (L : List LayoffRow) : List (String × ℚ) :=
  (sortValsDesc (groupSum (fun r => r.industry) (fun r => r.total_laid_off) L)).take 12

/-- Boxplot data of `percentage_laid_off` for the eight most frequent
industries (`project_gm.py` lines 105-106). -/
def gm_perc_box (L : List LayoffRow) : List (String × Option ℚ) :=
  let top8 := ((valueCounts (fun r => r.industry) L).take 8).map Prod.fst
  (L.filter (fun r => decide (r.industry ∈ top8))).map
    (fun r => (r.industry, r.percentage_laid_off))

/-- Top 10 countries by summed layoffs (`project_gm.py` line 114). -/
def gm_country_layoffs (L : List LayoffRow) : List (String × ℚ) :=
  (sortValsDesc (groupSum (fun r => r.country) (fun r => r.total_laid_off) L)).take 10

/-!
Jobs aggregates of `project_gm.py` (lines 120-173).  Each aggregate first
cleans the jobs table, exactly as the script computes them after the
cleaning stage.
-/

/-- Salary histogram input (`project_gm.py` line 122): the salary column of
the cleaned jobs table (all cells present after the row drop). -/
def gm_salary_hist (J : List JobRecord) : List ℚ :=
  (gm_clean_jobs J).filterMap (fun r => r.salary_in_usd)

/-- Median salary by work year (`project_gm.py` line 128). -/
def gm_salary_year (J : List JobRecord) : List (Int × ℚ) :=
  groupMedian (fun r => r.work_year) (fun r => r.salary_in_usd) (gm_clean_jobs J)

/-- Salary-by-experience boxplot data (`project_gm.py` line 138): the salary
values of each experience level, in the fixed `exp_order`. -/
def gm_exp_salary (J : List JobRecord) : List (String × List ℚ) :=
  gm_exp_order.map (fun lv =>
    (lv, (groupRows (fun r => r.experience_level) (gm_clean_jobs J) lv).filterMap
      (fun r => r.salary_in_usd)))

/-- Top 10 median salaries by employee residence (`project_gm.py`
line 143). -/
def gm_country_sal (J : List JobRecord) : List (String × ℚ) :=
  (sortValsDesc (groupMedian (fun r => r.employee_residence)
    (fun r => r.salary_in_usd) (gm_clean_jobs J))).take 10

/-- Work-setting counts for the pie chart (`project_gm.py` line 152). -/
def gm_ws_counts (J : List JobRecord) : List (String × ℚ) :=
  valueCounts (fun r => r.work_setting) (gm_clean_jobs J)

/-- IEEE 754 binary64 division of two naturals, modelling the float64
quotient pandas computes when normalizing integer counts: the exact
rational `n / d` rounded to 53 significant bits, round-to-nearest with
ties to even.  Overflow and subnormals are not modelled; count ratios from
any actual table lie well inside the normal range. -/
def div64 (n d : ℕ) : ℚ :=
  if n = 0 ∨ d = 0 then 0
  else
    let la := Nat.log2 n
    let lb := Nat.log2 d
    let adj := if d * 2 ^ la ≤ n * 2 ^ lb then 0 else 1
    let p := 52 + lb + adj
    let q := la
    let num := n * 2 ^ p
    let den := d * 2 ^ q
    let m0 := num / den
    let r := num % den
    let m := if 2 * r < den then m0
      else if den < 2 * r then m0 + 1
      else if m0 % 2 = 0 then m0 else m0 + 1
    if q ≤ p then (m : ℚ) / ((2 ^ (p - q) : ℕ) : ℚ)
    else ((m * 2 ^ (q - p) : ℕ) : ℚ)

/-- One row of the `pd.crosstab(work_year, work_setting,
normalize='index')` table of `project_gm.py` line 159: for year `y`, each
setting's count divided in float64 by the row total. -/
def gm_ws_year_row (J : List JobRecord) (y : Int) : List (String × ℚ) :=
  let C := gm_clean_jobs J
  let ss := keysOf (fun r => r.work_setting) C
  let rows := groupRows (fun r => r.work_year) C y
  let tot : ℕ :=
    (ss.map (fun s => (groupRows (fun r => r.work_setting) rows s).length)).sum
  ss.map (fun s =>
    (s, div64 (groupRows (fun r => r.work_setting) rows s).length tot))

/-- The spec-side comparator for the crosstab row of `project_gm.py`
line 159: the same per-setting counts divided by the row total in exact
rational arithmetic instead of float64. -/
def gm_ws_year_row_exact (J : List JobRecord) (y : Int) : List (String × ℚ) :=
  let C := gm_clean_jobs J
  let ss := keysOf (fun r => r.work_setting) C
  let rows := groupRows (fun r => r.work_year) C y
  let tot : ℚ :=
    ((ss.map (fun s => (groupRows (fun r => r.work_setting) rows s).length)).sum : ℕ)
  ss.map (fun s =>
    (s, ((groupRows (fun r => r.work_setting) rows s).length : ℚ) / tot))

/-- The full normalized crosstab of `project_gm.py` line 159, one row per
work year present in the cleaned table. -/
def gm_ws_year (J : List JobRecord) : List (Int × List (String × ℚ)) :=
  (keysOf (fun r => r.work_year) (gm_clean_jobs J)).map
    (fun y => (y, gm_ws_year_row J y))

/-- Median-salary heatmap, experience level by year, reindexed to
`exp_order` (`project_gm.py` lines 167-169). -/
def gm_heatmap (J : List JobRecord) : List (String × List (Int × ℚ)) :=
  let C := gm_clean_jobs J
  gm_exp_order.map (fun lv =>
    (lv, (keysOf (fun r => r.work_year) C).map (fun y =>
      (y, pandasMedian ((groupRows (fun r => r.work_year)
        (groupRows (fun r => r.experience_level) C lv) y).filterMap
          (fun r => r.salary_in_usd))))))

/-!
Layoffs aggregates of `project_gp.py` (lines 52-190).  The script first
sorts the layoffs table by date (line 26); `NaT` sorts last, the pandas
`na_position="last"` default.
-/

/-- Date order used by `layoffs.sort_values("date")`: lexicographic on
`(year, month)`, with `NaT` (`none`) last. -/
def dateLe (a b : Option (Int × Int)) : Prop :=
  match a, b with
  | none, none => True
  | none, some _ => False
  | some _, none => True
  | some x, some y => x.1 < y.1 ∨ (x.1 = y.1 ∧ x.2 ≤ y.2)

instance : DecidableRel dateLe := fun a b => by
  unfold dateLe
  cases a <;> cases b <;> infer_instance

/-- `layoffs.sort_values("date")` of `project_gp.py` line 26. -/
def gp_sort_layoffs (L : List LayoffRow) : List LayoffRow :=
  List.insertionSort (fun a b => dateLe a.date b.date) L

/-- Monthly layoffs of `project_gp.py` line 52 (the `.dropna()` after
`reset_index` drops nothing: keys are strings and sums are present). -/
def gp_monthly_layoffs (L : List LayoffRow) : List (Option (Int × Int) × ℚ) :=
  groupSum (fun r => r.date) (fun r => r.total_laid_off) (gp_sort_layoffs L)

/-- Yearly layoffs of `project_gp.py` line 68 (the `NaN` year key is
dropped by `groupby`). -/
def gp_yearly_layoffs (L : List LayoffRow) : List (Int × ℚ) :=
  groupSum (fun r => r.1) (fun r => r.2)
    ((gp_sort_layoffs L).filterMap (fun r => r.date.map (fun d => (d.1, r.total_laid_off))))

/-- Top 15 companies by summed layoffs (`project_gp.py` lines 83-90). -/
def gp_company_layoffs (L : List LayoffRow) : List (String × ℚ) :=
  (sortValsDesc (groupSum (fun r => r.company) (fun r => r.total_laid_off)
    (gp_sort_layoffs L))).take 15

/-- Top 12 industries by summed layoffs (`project_gp.py` lines 100-108). -/
def gp_industry_layoffs (L : List LayoffRow) : List (String × ℚ) :=
  (sortValsDesc (groupSum (fun r => r.industry) (fun r => r.total_laid_off)
    (gp_sort_layoffs L))).take 12

/-- Percentage-laid-off boxplot data of `project_gp.py` lines 118-125:
rows with a present percentage, restricted to the eight most frequent
industries among those rows. -/
def gp_perc_box (L : List LayoffRow) : List (String × ℚ) :=
  let perc := (gp_sort_layoffs L).filterMap
    (fun r => r.percentage_laid_off.map (fun p => (r.industry, p)))
  let top8 : List String := ((valueCounts Prod.fst perc).take 8).map Prod.fst
  perc.filter (fun q => decide (q.1 ∈ top8))

/-- Top 10 countries by summed layoffs (`project_gp.py` lines 133-141). -/
def gp_country_layoffs (L : List LayoffRow) : List (String × ℚ) :=
  (sortValsDesc (groupSum (fun r => r.country) (fun r => r.total_laid_off)
    (gp_sort_layoffs L))).take 10

/-- Scatter data of `project_gp.py` line 151: rows with `funds_raised`,
`total_laid_off` and `stage` all present. -/
def gp_funds_scatter (L : List LayoffRow) : List (ℚ × ℚ × String) :=
  (gp_sort_layoffs L).filterMap (fun r =>
    match r.funds_raised, r.total_laid_off with
    | some f, some t => some (f, t, r.stage)
    | _, _ => none)

/-- Year-by-month layoffs heatmap of `project_gp.py` lines 173-180: rows
with date and `total_laid_off` present, summed per `(year, month)` cell
with empty cells filled with 0. -/
def gp_heat_time (L : List LayoffRow) : List (Int × List (Int × ℚ)) :=
  let rows := (gp_sort_layoffs L).filterMap (fun r =>
    match r.date, r.total_laid_off with
    | some d, some t => some (d, t)
    | _, _ => none)
  (keysOf (fun q => q.1.1) rows).map (fun y =>
    (y, (keysOf (fun q => q.1.2) rows).map (fun m =>
      (m, ((groupRows (fun q => q.1) rows (y, m)).map Prod.snd).sum))))

/-!
Jobs aggregates of `project_gp.py` (lines 196-367).  Aggregates after
line 221 read `experience_level_clean` through the categorical conversion
`gp_categorical_exp`.
-/

/-- Salary histogram input of `project_gp.py` line 198. -/
def gp_salary_hist (J : List JobRecord) : List ℚ :=
  (gp_clean_jobs J).filterMap (fun r => r.salary_in_usd)

/-- Median salary by work year (`project_gp.py` lines 205-209). -/
def gp_salary_year (J : List JobRecord) : List (Int × ℚ) :=
  groupMedian (fun r => r.work_year) (fun r => r.salary_in_usd) (gp_clean_jobs J)

/-- Density-plot data by experience level (`project_gp.py` lines 230-242):
for each level of `exp_order`, the salaries of the rows whose categorical
experience level equals it. -/
def gp_exp_salary (J : List JobRecord) : List (String × List ℚ) :=
  gp_exp_order.map (fun lv =>
    (lv, (groupRows (fun r => gp_categorical_exp r.experience_level_clean)
      (gp_clean_jobs J) (some lv)).filterMap (fun r => r.salary_in_usd)))

/-- Median salary by job category for the ten most frequent categories,
sorted by median descending (`project_gp.py` lines 251-260). -/
def gp_salary_by_category (J : List JobRecord) : List (String × ℚ) :=
  let C := gp_clean_jobs J
  let top10 : List String := ((valueCounts (fun r => r.job_category_clean) C).take 10).map Prod.fst
  sortValsDesc (groupMedian (fun r => r.job_category_clean)
    (fun r => r.salary_in_usd)
    (C.filter (fun r => decide (r.job_category_clean ∈ top10))))

/-- Work-setting counts for the pie chart (`project_gp.py` line 275). -/
def gp_setting_counts (J : List JobRecord) : List (String × ℚ) :=
  valueCounts (fun r => r.work_setting_clean) (gp_clean_jobs J)

/-- One row of the normalized work-setting-by-year pivot of
`project_gp.py` lines 288-300: per-setting counts for year `y` divided in
float64 by the row sum of the pivot. -/
def gp_ws_year_row (J : List JobRecord) (y : Int) : List (String × ℚ) :=
  let C := gp_clean_jobs J
  let ss := keysOf (fun r => r.work_setting_clean) C
  let rows := groupRows (fun r => r.work_year) C y
  let tot : ℕ :=
    (ss.map (fun s => (groupRows (fun r => r.work_setting_clean) rows s).length)).sum
  ss.map (fun s =>
    (s, div64 (groupRows (fun r => r.work_setting_clean) rows s).length tot))

/-- The spec-side comparator for the pivot row of `project_gp.py`
line 300: the same per-setting counts divided by the row sum in exact
rational arithmetic instead of float64. -/
def gp_ws_year_row_exact (J : List JobRecord) (y : Int) : List (String × ℚ) :=
  let C := gp_clean_jobs J
  let ss := keysOf (fun r => r.work_setting_clean) C
  let rows := groupRows (fun r => r.work_year) C y
  let tot : ℚ :=
    ((ss.map (fun s => (groupRows (fun r => r.work_setting_clean) rows s).length)).sum : ℕ)
  ss.map (fun s =>
    (s, ((groupRows (fun r => r.work_setting_clean) rows s).length : ℚ) / tot))

/-- The full normalized work-setting pivot of `project_gp.py` line 300. -/
def gp_ws_year (J : List JobRecord) : List (Int × List (String × ℚ)) :=
  (keysOf (fun r => r.work_year) (gp_clean_jobs J)).map
    (fun y => (y, gp_ws_year_row J y))

/-- Median-salary heatmap by experience level and year (`project_gp.py`
lines 322-333): rows with a missing categorical level are dropped. -/
def gp_heatmap (J : List JobRecord) : List (String × List (Int × ℚ)) :=
  let C := gp_clean_jobs J
  let rows := C.filterMap (fun r =>
    (gp_categorical_exp r.experience_level_clean).map (fun lv => (lv, r)))
  (keysOf Prod.fst rows).map (fun lv =>
    (lv, (keysOf (fun r => r.work_year) C).map (fun y =>
      (y, pandasMedian ((groupRows (fun q => (q.2).work_year)
        (groupRows Prod.fst rows lv) y).filterMap (fun q => (q.2).salary_in_usd))))))

/-- Median salary by employee residence for the ten most frequent
residences, sorted descending (`project_gp.py` lines 348-357). -/
def gp_salary_by_country (J : List JobRecord) : List (String × ℚ) :=
  let C := gp_clean_jobs J
  let top10 : List String := ((valueCounts (fun r => r.employee_residence) C).take 10).map Prod.fst
  sortValsDesc (groupMedian (fun r => r.employee_residence)
    (fun r => r.salary_in_usd)
    (C.filter (fun r => decide (r.employee_residence ∈ top10))))

/-!
Process-level model: loading, error handling and the date-parsing step.
-/

/-- Exceptions the modelled pipeline can raise. -/
inductive PyExn where
  | fileNotFound (path : String)
  | valueError
  | parserError
deriving DecidableEq

/-- Outcome of running a script prefix: normal completion, the handled
print-and-exit path, or an uncaught exception aborting the run. -/
inductive RunOutcome (α : Type) where
  | ok (a : α)
  | handledExit (msg : String)
  | uncaught (e : PyExn)
deriving DecidableEq

/-- Whether an outcome is the handled print-and-exit path. -/
def RunOutcome.isHandled {α : Type} : RunOutcome α → Bool
  | .handledExit _ => true
  | _ => false

/-- The two input files as the loader sees them: `none` means the file is
absent (reading raises `FileNotFoundError`), `some (.error e)` means the
file is present but reading it raises `e`, `some (.ok t)` is a successful
parse. -/
structure InputFiles where
  layoffsFile : Option (Except PyExn (List RawLayoffRow))
  jobsFile : Option (Except PyExn (List JobRecord))

/-- The message printed by the `except FileNotFoundError` handler of
`project_gm.py` line 26. -/
def gm_err_msg : String := "Error. Please ensure csv files are in the folder."

/-- Loader of `project_gm.py` lines 22-27: both reads run inside one
`try`, whose single handler catches `FileNotFoundError`, prints a message
and exits; any other exception escapes. -/
def gm_load (fs : InputFiles) : RunOutcome (List RawLayoffRow × List JobRecord) :=
  match fs.layoffsFile with
  | none => .handledExit gm_err_msg
  | some (.error e) => .uncaught e
  | some (.ok L) =>
    match fs.jobsFile with
    | none => .handledExit gm_err_msg
    | some (.error e) => .uncaught e
    | some (.ok J) => .ok (L, J)

/-- Loader of `project_gp.py` lines 18-19: bare `pd.read_csv` calls with no
handler, so any failure, including a missing file, is uncaught. -/
def gp_load (fs : InputFiles) : RunOutcome (List RawLayoffRow × List JobRecord) :=
  match fs.layoffsFile with
  | none => .uncaught (.fileNotFound "layoffs.csv")
  | some (.error e) => .uncaught e
  | some (.ok L) =>
    match fs.jobsFile with
    | none => .uncaught (.fileNotFound "jobs_in_data.csv")
    | some (.error e) => .uncaught e
    | some (.ok J) => .ok (L, J)

/-- Whether a raw date cell survives strict parsing: an empty (`NaN`) cell
becomes `NaT` without error even under `errors="raise"`; a present cell
must parse. -/
def dateOK (parse : String → Option (Int × Int)) (r : RawLayoffRow) : Bool :=
  match r.date with
  | none => true
  | some s => (parse s).isSome

/-- Conversion of a raw row once dates are resolved. -/
def resolveRow (parse : String → Option (Int × Int)) (r : RawLayoffRow) : LayoffRow :=
  { company := r.company, industry := r.industry, country := r.country
    stage := r.stage, date := r.date.bind parse
    total_laid_off := r.total_laid_off
    percentage_laid_off := r.percentage_laid_off
    funds_raised := r.funds_raised }

/-- `pd.to_datetime(layoffs['date'])` of `project_gm.py` line 35: default
`errors="raise"` semantics — any unparseable cell raises and no row is
coerced. -/
def gm_to_datetime (parse : String → Option (Int × Int)) (t : List RawLayoffRow) :
    Except PyExn (List LayoffRow) :=
  if t.all (dateOK parse) then .ok (t.map (resolveRow parse))
  else .error .valueError

/-- `pd.to_datetime(layoffs["date"], errors="coerce")` of `project_gp.py`
line 22: unparseable cells silently become `NaT`; nothing raises. -/
def gp_to_datetime (parse : String → Option (Int × Int)) (t : List RawLayoffRow) :
    List LayoffRow :=
  t.map (resolveRow parse)

/-- `project_gm.py` through loading, date parsing and jobs cleaning. -/
def gm_run_head (parse : String → Option (Int × Int)) (fs : InputFiles) :
    RunOutcome (List LayoffRow × List JobRecord) :=
  match gm_load fs with
  | .ok (L, J) =>
    match gm_to_datetime parse L with
    | .ok L2 => .ok (L2, gm_clean_jobs J)
    | .error e => .uncaught e
  | .handledExit m => .handledExit m
  | .uncaught e => .uncaught e

/-- `project_gp.py` through loading, coercing date parsing, the date sort
and jobs cleaning. -/
def gp_run_head (parse : String → Option (Int × Int)) (fs : InputFiles) :
    RunOutcome (List LayoffRow × List GpJobRecord) :=
  match gp_load fs with
  | .ok (L, J) => .ok (gp_sort_layoffs (gp_to_datetime parse L), gp_clean_jobs J)
  | .handledExit m => .handledExit m
  | .uncaught e => .uncaught e

/-!
Renderer and deck model: the charts each script saves and the slides each
script adds.
-/

/-- Run-environment facts outside the two input tables: output directories
and the matplotlib configuration the scripts set.  The aggregate values may
not read any of this. -/
structure Env where
  img_dir : String
  fig_dir : String
  dpi : Nat
  style : String

/-- `os.path.join` as the scripts use it. -/
def pathJoin (d f : String) : String := d ++ "/" ++ f

/-- A file system as a list of present paths; `savefig` creates the path
when absent and overwrites (adding nothing) when present. -/
def writeFile (fs : List String) (p : String) : List String :=
  if p ∈ fs then fs else fs ++ [p]

/-- Sequence of `savefig` writes. -/
def writeAll (fs : List String) (ps : List String) : List String :=
  ps.foldl writeFile fs

/-- The 13 chart files `project_gm.py` saves, in `save_plot` call order
(lines 79-173). -/
def gm_chart_filenames : List String :=
  ["Slide_06_LayoffsMonthly.png", "Slide_07_LayoffsYearly.png",
   "Slide_08_TopCompanies.png", "Slide_09_IndustryLayoffs.png",
   "Slide_10_PercBoxplot.png", "Slide_11_CountryLayoffs.png",
   "Slide_12_SalaryHist.png", "Slide_13_SalaryTrend.png",
   "Slide_14_ExpSalary.png", "Slide_15_CountrySalary.png",
   "Slide_16_WorkSettingPie.png", "Slide_17_WorkSettingStack.png",
   "Slide_18_SalaryHeatmap.png"]

/-- The 16 figure files `project_gp.py` saves, in `save_current_fig` call
order (lines 65-367). -/
def gp_figure_filenames : List String :=
  ["layoffs_monthly.png", "layoffs_yearly.png", "layoffs_top_companies.png",
   "layoffs_industry.png", "layoffs_percentage_industry.png",
   "layoffs_country.png", "layoffs_funds_scatter.png",
   "layoffs_heatmap_time.png", "jobs_salary_distribution.png",
   "jobs_salary_by_year.png", "jobs_salary_by_experience.png",
   "jobs_salary_by_category.png", "jobs_work_setting_pie.png",
   "jobs_work_setting_by_year.png", "jobs_salary_heatmap.png",
   "jobs_salary_by_country.png"]

/-- A slide as the scripts define it: a title and an optional chart image. -/
structure SlideDef where
  title : String
  image : Option String
deriving DecidableEq

/-- A built slide: title plus the embedded picture if its file existed. -/
structure Slide where
  title : String
  picture : Option String
deriving DecidableEq

/-- The 18 slides `project_gm.py` defines: the layout-0 title slide
(line 210) followed by the 17 `add_content_slide` calls (lines 215-335). -/
def gm_slides : List SlideDef :=
  [⟨"Visualizing Tech Workforce Dynamics (2020–2025)", none⟩,
   ⟨"Why Study Tech Workforce Dynamics?", none⟩,
   ⟨"Datasets Overview", none⟩,
   ⟨"Tech Layoffs Over Time", some "Slide_06_LayoffsMonthly.png"⟩,
   ⟨"Layoffs by Year", some "Slide_07_LayoffsYearly.png"⟩,
   ⟨"Top 15 Companies by Layoffs", some "Slide_08_TopCompanies.png"⟩,
   ⟨"Layoffs by Industry", some "Slide_09_IndustryLayoffs.png"⟩,
   ⟨"Percentage Laid Off Distribution", some "Slide_10_PercBoxplot.png"⟩,
   ⟨"Global Layoff Distribution", some "Slide_11_CountryLayoffs.png"⟩,
   ⟨"Salary Distribution (Data Roles)", some "Slide_12_SalaryHist.png"⟩,
   ⟨"Median Salary Growth", some "Slide_13_SalaryTrend.png"⟩,
   ⟨"Salary by Experience Level", some "Slide_14_ExpSalary.png"⟩,
   ⟨"Global Salary Disparities", some "Slide_15_CountrySalary.png"⟩,
   ⟨"Work Setting Distribution", some "Slide_16_WorkSettingPie.png"⟩,
   ⟨"Work Setting Evolution", some "Slide_17_WorkSettingStack.png"⟩,
   ⟨"Salary Heatmap (Exp x Year)", some "Slide_18_SalaryHeatmap.png"⟩,
   ⟨"Key Insights", none⟩,
   ⟨"Conclusion", none⟩]

/-- `add_content_slide` of `project_gm.py` lines 183-207: always adds one
slide; the picture is embedded only when the image file exists under
`IMG_DIR`. -/
def gm_make_slide (fs : List String) (d : SlideDef) : Slide :=
  { title := d.title
    picture := match d.image with
      | some f => if pathJoin "project_images" f ∈ fs then some f else none
      | none => none }

/-- The deck `project_gm.py` builds over a given file system. -/
def gm_build_deck (fs : List String) : List Slide :=
  gm_slides.map (gm_make_slide fs)

/-- The 20 slides `project_gp.py` defines via `add_title_and_content`
(lines 400-580). -/
def gp_slides : List SlideDef :=
  [⟨"Visualizing Tech Workforce Dynamics (2020–2025)", none⟩,
   ⟨"Why Study Tech Workforce Dynamics?", none⟩,
   ⟨"Datasets Used", none⟩,
   ⟨"Tech Layoffs Over Time", some "layoffs_monthly.png"⟩,
   ⟨"Yearly Layoff Totals", some "layoffs_yearly.png"⟩,
   ⟨"Companies with the Highest Layoffs", some "layoffs_top_companies.png"⟩,
   ⟨"Layoffs by Industry", some "layoffs_industry.png"⟩,
   ⟨"Layoff Percentage by Industry", some "layoffs_percentage_industry.png"⟩,
   ⟨"Layoffs by Country", some "layoffs_country.png"⟩,
   ⟨"Funding Versus Layoffs", some "layoffs_funds_scatter.png"⟩,
   ⟨"Layoffs Heatmap by Year and Month", some "layoffs_heatmap_time.png"⟩,
   ⟨"Salary Distribution in Data Roles", some "jobs_salary_distribution.png"⟩,
   ⟨"Median Salary Over Time", some "jobs_salary_by_year.png"⟩,
   ⟨"Salary by Experience Level", some "jobs_salary_by_experience.png"⟩,
   ⟨"Median Salary by Job Category", some "jobs_salary_by_category.png"⟩,
   ⟨"Work Setting Distribution", some "jobs_work_setting_pie.png"⟩,
   ⟨"Work Setting Over Time", some "jobs_work_setting_by_year.png"⟩,
   ⟨"Salary Heatmap by Experience Level and Year", some "jobs_salary_heatmap.png"⟩,
   ⟨"Median Salary by Country", some "jobs_salary_by_country.png"⟩,
   ⟨"Key Takeaways", none⟩]

/-- `add_title_and_content` of `project_gp.py` lines 375-397: always adds
one slide; the picture is embedded only when the image key is in the
`figure_paths` dictionary, modelled by the saved-figure list. -/
def gp_make_slide (figs : List String) (d : SlideDef) : Slide :=
  { title := d.title
    picture := match d.image with
      | some f => if f ∈ figs then some f else none
      | none => none }

/-- The deck `project_gp.py` builds over a given saved-figure list. -/
def gp_build_deck (figs : List String) : List Slide :=
  gp_slides.map (gp_make_slide figs)

/-!
Aggregate bundles, one per script, as functions of the run environment and
the two input tables.
-/

/-- Every aggregate `project_gm.py` computes. -/
structure GmAggregates where
  monthly_layoffs : List (Option (Int × Int) × ℚ)
  yearly_layoffs : List (Int × ℚ)
  top_companies : List (String × ℚ)
  ind_layoffs : List (String × ℚ)
  perc_box : List (String × Option ℚ)
  country_layoffs : List (String × ℚ)
  salary_hist : List ℚ
  salary_year : List (Int × ℚ)
  exp_salary : List (String × List ℚ)
  country_sal : List (String × ℚ)
  ws_counts : List (String × ℚ)
  ws_year : List (Int × List (String × ℚ))
  heatmap : List (String × List (Int × ℚ))
deriving DecidableEq

/-- The aggregates of `project_gm.py` as a function of the environment and
the two loaded tables.  The aggregate expressions of the script (lines
72-173) read only the two data frames, so the environment argument is not
consulted. -/
def gm_aggregates (_env : Env) (L : List LayoffRow) (J : List JobRecord) :
    GmAggregates :=
  { monthly_layoffs := gm_monthly_layoffs L
    yearly_layoffs := gm_yearly_layoffs L
    top_companies := gm_top_companies L
    ind_layoffs := gm_ind_layoffs L
    perc_box := gm_perc_box L
    country_layoffs := gm_country_layoffs L
    salary_hist := gm_salary_hist J
    salary_year := gm_salary_year J
    exp_salary := gm_exp_salary J
    country_sal := gm_country_sal J
    ws_counts := gm_ws_counts J
    ws_year := gm_ws_year J
    heatmap := gm_heatmap J }

/-- Every aggregate `project_gp.py` computes. -/
structure GpAggregates where
  monthly_layoffs : List (Option (Int × Int) × ℚ)
  yearly_layoffs : List (Int × ℚ)
  company_layoffs : List (String × ℚ)
  industry_layoffs : List (String × ℚ)
  perc_box : List (String × ℚ)
  country_layoffs : List (String × ℚ)
  funds_scatter : List (ℚ × ℚ × String)
  heat_time : List (Int × List (Int × ℚ))
  salary_hist : List ℚ
  salary_year : List (Int × ℚ)
  exp_salary : List (String × List ℚ)
  salary_by_category : List (String × ℚ)
  setting_counts : List (String × ℚ)
  ws_year : List (Int × List (String × ℚ))
  heatmap : List (String × List (Int × ℚ))
  salary_by_country : List (String × ℚ)
deriving DecidableEq

/-- The aggregates of `project_gp.py` as a function of the environment and
the two loaded tables (script lines 52-367); the environment argument is
not consulted by any aggregate expression. -/
def gp_aggregates (_env : Env) (L : List LayoffRow) (J : List JobRecord) :
    GpAggregates :=
  { monthly_layoffs := gp_monthly_layoffs L
    yearly_layoffs := gp_yearly_layoffs L
    company_layoffs := gp_company_layoffs L
    industry_layoffs := gp_industry_layoffs L
    perc_box := gp_perc_box L
    country_layoffs := gp_country_layoffs L
    funds_scatter := gp_funds_scatter L
    heat_time := gp_heat_time L
    salary_hist := gp_salary_hist J
    salary_year := gp_salary_year J
    exp_salary := gp_exp_salary J
    salary_by_category := gp_salary_by_category J
    setting_counts := gp_setting_counts J
    ws_year := gp_ws_year J
    heatmap := gp_heatmap J
    salary_by_country := gp_salary_by_country J }

/-- Chart image paths each script writes, the one place the environment
enters the output. -/
def gm_image_paths (env : Env) : List String :=
  gm_chart_filenames.map (pathJoin env.img_dir)

/-- Figure paths `project_gp.py` writes under its figure directory. -/
def gp_image_paths (env : Env) : List String :=
  gp_figure_filenames.map (pathJoin env.fig_dir)

/-!
Helper lemmas.
-/

theorem gm_clean_jobs_cons_none (r : JobRecord) (t : List JobRecord)
    (h : r.salary_in_usd = none) : gm_clean_jobs (r :: t) = gm_clean_jobs t := by
  simp [gm_clean_jobs, List.filter_cons, h]

theorem gp_clean_jobs_cons_none (r : JobRecord) (t : List JobRecord)
    (h : r.salary_in_usd = none) : gp_clean_jobs (r :: t) = gp_clean_jobs t := by
  simp [gp_clean_jobs, List.filter_cons, h]

theorem list_sum_map_add {κ : Type} (l : List κ) (f g : κ → ℕ) :
    (l.map (fun x => f x + g x)).sum = (l.map f).sum + (l.map g).sum := by
  induction l with
  | nil => simp
  | cons a l ih => simp [List.map_cons, List.sum_cons, ih]; omega

theorem sum_indicator_one {κ : Type} [DecidableEq κ] (ss : List κ) (k : κ)
    (hnd : ss.Nodup) (hk : k ∈ ss) :
    (ss.map (fun s => if k = s then 1 else 0)).sum = (1 : ℕ) := by
  induction ss with
  | nil => cases hk
  | cons a l ih =>
    rcases List.nodup_cons.mp hnd with ⟨hal, hl⟩
    rcases List.mem_cons.mp hk with hka | hkl
    · subst hka
      have hz : (l.map (fun s => if k = s then 1 else 0)).sum = 0 := by
        apply List.sum_eq_zero
        intro x hx
        rcases List.mem_map.mp hx with ⟨s, hs, hxs⟩
        have : k ≠ s := fun hh => hal (hh ▸ hs)
        simp [← hxs, this]
      simp [hz]
    · have hka : k ≠ a := fun hh => hal (hh ▸ hkl)
      simp [hka, ih hl hkl]

theorem groupRows_cons_length {α κ : Type} [DecidableEq κ] (key : α → κ)
    (a : α) (l : List α) (s : κ) :
    (groupRows key (a :: l) s).length =
      (groupRows key l s).length + (if key a = s then 1 else 0) := by
  by_cases h : key a = s <;> simp [groupRows, List.filter_cons, h]

theorem groupRows_length_partition {α κ : Type} [DecidableEq κ] (key : α → κ)
    (l : List α) (ss : List κ) (hnd : ss.Nodup) (hcov : ∀ a ∈ l, key a ∈ ss) :
    (ss.map (fun s => (groupRows key l s).length)).sum = l.length := by
  induction l with
  | nil => simp [groupRows]
  | cons a l ih =>
    have hmapeq : ss.map (fun s => (groupRows key (a :: l) s).length) =
        ss.map (fun s => (groupRows key l s).length + (if key a = s then 1 else 0)) := by
      apply List.map_congr_left
      intro s _
      exact groupRows_cons_length key a l s
    rw [hmapeq, list_sum_map_add,
      ih (fun x hx => hcov x (List.mem_cons_of_mem a hx)),
      sum_indicator_one ss (key a) hnd (hcov a (List.mem_cons_self a l))]
    simp

theorem list_sum_map_div {κ : Type} (l : List κ) (f : κ → ℚ) (d : ℚ) :
    (l.map (fun x => f x / d)).sum = (l.map f).sum / d := by
  induction l with
  | nil => simp
  | cons a l ih => simp [List.map_cons, List.sum_cons, ih, add_div]

theorem take_sortValsDesc_spec {κ : Type} [DecidableEq κ] (g : List (κ × ℚ)) (n : Nat) :
    ((sortValsDesc g).take n).length ≤ n ∧
    List.Sorted valGe ((sortValsDesc g).take n) ∧
    ∀ p ∈ (sortValsDesc g).take n, ∀ q ∈ g,
      q ∉ (sortValsDesc g).take n → q.2 ≤ p.2 := by
  have hsorted : List.Sorted valGe (sortValsDesc g) :=
    List.sorted_insertionSort valGe g
  refine ⟨?_, ?_, ?_⟩
  · simp [List.length_take_le n (sortValsDesc g)]
  · exact List.Pairwise.sublist (List.take_sublist n (sortValsDesc g)) hsorted
  · intro p hp q hq hq'
    have hqs : q ∈ sortValsDesc g :=
      (List.perm_insertionSort valGe g).mem_iff.mpr hq
    rw [← List.take_append_drop n (sortValsDesc g)] at hqs
    rcases List.mem_append.mp hqs with hqt | hqd
    · exact absurd hqt hq'
    · have hsp : List.Pairwise valGe
          ((sortValsDesc g).take n ++ (sortValsDesc g).drop n) := by
        rw [List.take_append_drop]; exact hsorted
      exact (List.pairwise_append.mp hsp).2.2 p hp q hqd

/-!
Sample data used by witnesses and counterexamples.
-/

/-- A jobs row with a missing salary. -/
def jobNoSalary : JobRecord :=
  { work_year := 2022, job_category := "Data Science", experience_level := "Senior"
    work_setting := "Remote", company_size := "M", employee_residence := "US"
    salary_in_usd := none }

/-- A jobs row with a present salary. -/
def jobWithSalary : JobRecord :=
  { work_year := 2022, job_category := "Data Science"
    experience_level := "Entry-level", work_setting := "Remote"
    company_size := "M", employee_residence := "US"
    salary_in_usd := some 100000 }

/-!
Claim C1.
-/

/-- C1: a job record with a missing `salary_in_usd` is removed before any
jobs aggregate is computed: every cleaned row has a present salary, and
prepending a missing-salary record to the input changes no downstream jobs
aggregate of either script. -/
theorem c1_missing_salary_absent (t : List JobRecord) (r : JobRecord)
    (h : r.salary_in_usd = none) :
    (∀ x ∈ gm_clean_jobs t, x.salary_in_usd.isSome = true) ∧
    (∀ x ∈ gp_clean_jobs t, x.salary_in_usd.isSome = true) ∧
    gm_salary_hist (r :: t) = gm_salary_hist t ∧
    gm_salary_year (r :: t) = gm_salary_year t ∧
    gm_exp_salary (r :: t) = gm_exp_salary t ∧
    gm_country_sal (r :: t) = gm_country_sal t ∧
    gm_ws_counts (r :: t) = gm_ws_counts t ∧
    gm_ws_year (r :: t) = gm_ws_year t ∧
    gm_heatmap (r :: t) = gm_heatmap t ∧
    gp_salary_hist (r :: t) = gp_salary_hist t ∧
    gp_salary_year (r :: t) = gp_salary_year t ∧
    gp_exp_salary (r :: t) = gp_exp_salary t ∧
    gp_salary_by_category (r :: t) = gp_salary_by_category t ∧
    gp_setting_counts (r :: t) = gp_setting_counts t ∧
    gp_ws_year (r :: t) = gp_ws_year t ∧
    gp_heatmap (r :: t) = gp_heatmap t ∧
    gp_salary_by_country (r :: t) = gp_salary_by_country t := by
  have hgm := gm_clean_jobs_cons_none r t h
  have hgp := gp_clean_jobs_cons_none r t h
  refine ⟨?_, ?_, ?_, ?_, ?_, ?_, ?_, ?_, ?_, ?_, ?_, ?_, ?_, ?_, ?_, ?_, ?_⟩
  · intro x hx
    simp only [gm_clean_jobs, List.mem_map, List.mem_filter] at hx
    rcases hx with ⟨r0, ⟨_, hr0⟩, hx⟩
    rw [← hx]
    exact hr0
  · intro x hx
    simp only [gp_clean_jobs, List.mem_map, List.mem_filter] at hx
    rcases hx with ⟨r0, ⟨_, hr0⟩, hx⟩
    rw [← hx]
    exact hr0
  · simp only [gm_salary_hist, hgm]
  · simp only [gm_salary_year, hgm]
  · simp only [gm_exp_salary, hgm]
  · simp only [gm_country_sal, hgm]
  · simp only [gm_ws_counts, hgm]
  · simp only [gm_ws_year, gm_ws_year_row, hgm]
  · simp only [gm_heatmap, hgm]
  · simp only [gp_salary_hist, hgp]
  · simp only [gp_salary_year, hgp]
  · simp only [gp_exp_salary, hgp]
  · simp only [gp_salary_by_category, hgp]
  · simp only [gp_setting_counts, hgp]
  · simp only [gp_ws_year, gp_ws_year_row, hgp]
  · simp only [gp_heatmap, hgp]
  · simp only [gp_salary_by_country, hgp]

/-- C1 witness: the theorem applied to concrete tables, with the
missing-salary hypothesis discharged. -/
theorem c1_missing_salary_absent_witness :
    gm_salary_hist (jobNoSalary :: [jobWithSalary]) = gm_salary_hist [jobWithSalary] ∧
    gp_setting_counts (jobNoSalary :: [jobWithSalary]) = gp_setting_counts [jobWithSalary] := by
  have hthm := c1_missing_salary_absent [jobWithSalary] jobNoSalary rfl
  exact ⟨hthm.2.2.1, hthm.2.2.2.2.2.2.2.2.2.2.2.2.2.1⟩

/-!
Claim C2.
-/

/-- An input state with `layoffs.csv` absent. -/
def fsLayoffsMissing : InputFiles :=
  { layoffsFile := none, jobsFile := some (.ok [jobWithSalary]) }

/-- An input state with both files present and well-formed. -/
def fsBothPresent : InputFiles :=
  { layoffsFile := some (.ok []), jobsFile := some (.ok [jobWithSalary]) }

/-- An input state where `jobs_in_data.csv` is absent. -/
def fsJobsMissing : InputFiles :=
  { layoffsFile := some (.ok []), jobsFile := none }

/-- An input state where reading `layoffs.csv` raises a non-file-not-found
error. -/
def fsLayoffsCorrupt : InputFiles :=
  { layoffsFile := some (.error .parserError), jobsFile := some (.ok [jobWithSalary]) }

/-- C2 counterexample: in `project_gp.py` a missing `layoffs.csv` is not
caught — the run aborts with an uncaught `FileNotFoundError` and never
reaches the handled print-and-exit path the claim asserts for both
programs. -/
theorem c2_counterexample :
    gp_load fsLayoffsMissing = .uncaught (.fileNotFound "layoffs.csv") ∧
    (gp_load fsLayoffsMissing).isHandled = false := by
  exact ⟨rfl, rfl⟩

/-- C2 amended: in `project_gm.py` a missing input CSV is caught and the
process exits with a printed message, and `FileNotFoundError` is the only
failure mode the script catches (any other load error escapes); in
`project_gp.py` nothing is caught, so a missing input aborts with an
uncaught `FileNotFoundError`. -/
theorem c2_missing_file_handling :
    (∀ fs : InputFiles, fs.layoffsFile = none →
      gm_load fs = .handledExit gm_err_msg) ∧
    (∀ (fs : InputFiles) (L : List RawLayoffRow),
      fs.layoffsFile = some (.ok L) → fs.jobsFile = none →
      gm_load fs = .handledExit gm_err_msg) ∧
    (∀ (fs : InputFiles) (e : PyExn), fs.layoffsFile = some (.error e) →
      gm_load fs = .uncaught e) ∧
    (∀ (fs : InputFiles) (L : List RawLayoffRow) (e : PyExn),
      fs.layoffsFile = some (.ok L) → fs.jobsFile = some (.error e) →
      gm_load fs = .uncaught e) ∧
    (∀ fs : InputFiles, fs.layoffsFile = none →
      gp_load fs = .uncaught (.fileNotFound "layoffs.csv")) ∧
    (∀ (fs : InputFiles) (L : List RawLayoffRow),
      fs.layoffsFile = some (.ok L) → fs.jobsFile = none →
      gp_load fs = .uncaught (.fileNotFound "jobs_in_data.csv")) := by
  refine ⟨?_, ?_, ?_, ?_, ?_, ?_⟩
  · intro fs h; simp [gm_load, h]
  · intro fs L h h2; simp [gm_load, h, h2]
  · intro fs e h; simp [gm_load, h]
  · intro fs L e h h2; simp [gm_load, h, h2]
  · intro fs h; simp [gp_load, h]
  · intro fs L h h2; simp [gp_load, h, h2]

/-- C2 witness: the amended theorem applied at concrete input states, each
hypothesis discharged by evaluation. -/
theorem c2_missing_file_handling_witness :
    gm_load fsLayoffsMissing = .handledExit gm_err_msg ∧
    gm_load fsJobsMissing = .handledExit gm_err_msg ∧
    gm_load fsLayoffsCorrupt = .uncaught .parserError ∧
    gp_load fsLayoffsMissing = .uncaught (.fileNotFound "layoffs.csv") ∧
    gp_load fsJobsMissing = .uncaught (.fileNotFound "jobs_in_data.csv") := by
  refine ⟨?_, ?_, ?_, ?_, ?_⟩
  · exact c2_missing_file_handling.1 fsLayoffsMissing rfl
  · exact c2_missing_file_handling.2.1 fsJobsMissing [] rfl rfl
  · exact c2_missing_file_handling.2.2.1 fsLayoffsCorrupt .parserError rfl
  · exact c2_missing_file_handling.2.2.2.2.1 fsLayoffsMissing rfl
  · exact c2_missing_file_handling.2.2.2.2.2 fsJobsMissing [] rfl rfl

/-!
Claim C3.
-/

/-- A concrete stand-in for the pandas date parser used by witnesses: it
recognises a single well-formed cell. -/
def sampleParse : String → Option (Int × Int) :=
  fun s => if s = "2023-01-15" then some (2023, 1) else none

/-- A raw layoffs row whose date cell is malformed. -/
def rawBadDate : RawLayoffRow :=
  { company := "Acme", industry := "Tech", country := "United States"
    stage := "Series A", date := some "not-a-date"
    total_laid_off := some 120, percentage_laid_off := some (1/10)
    funds_raised := some 500 }

/-- An input state whose layoffs table holds the malformed-date row. -/
def fsBadDate : InputFiles :=
  { layoffsFile := some (.ok [rawBadDate]), jobsFile := some (.ok [jobWithSalary]) }

/-- C3 counterexample: in `project_gp.py` a malformed layoffs date does not
abort the run — `errors="coerce"` silently turns the cell into `NaT` and
the row survives, contradicting the claim that every such failure
propagates uncaught. -/
theorem c3_counterexample :
    sampleParse "not-a-date" = none ∧
    gp_run_head sampleParse fsBadDate =
      .ok ([{ company := "Acme", industry := "Tech", country := "United States"
              stage := "Series A", date := none
              total_laid_off := some 120, percentage_laid_off := some (1/10)
              funds_raised := some 500 }], gp_clean_jobs [jobWithSalary]) := by
  exact ⟨rfl, rfl⟩

/-- C3 amended: in `project_gm.py` a malformed layoffs date cell aborts the
run with an uncaught error, but in `project_gp.py` the same cell is
silently coerced to `NaT` and the retained row flows on; so uncaught
propagation of non-file-not-found failures holds for `project_gm.py`
only. -/
theorem c3_malformed_date_handling :
    (∀ (parse : String → Option (Int × Int)) (fs : InputFiles)
      (L : List RawLayoffRow) (J : List JobRecord) (r : RawLayoffRow) (s : String),
      fs.layoffsFile = some (.ok L) → fs.jobsFile = some (.ok J) →
      r ∈ L → r.date = some s → parse s = none →
      gm_run_head parse fs = .uncaught .valueError) ∧
    (∀ (parse : String → Option (Int × Int)) (fs : InputFiles)
      (L : List RawLayoffRow) (J : List JobRecord),
      fs.layoffsFile = some (.ok L) → fs.jobsFile = some (.ok J) →
      gp_run_head parse fs =
        .ok (gp_sort_layoffs (gp_to_datetime parse L), gp_clean_jobs J)) ∧
    (∀ (parse : String → Option (Int × Int)) (L : List RawLayoffRow)
      (r : RawLayoffRow), r ∈ L →
      resolveRow parse r ∈ gp_to_datetime parse L) := by
  refine ⟨?_, ?_, ?_⟩
  · intro parse fs L J r s h1 h2 hr hs hp
    have hbad : L.all (dateOK parse) = false := by
      have h4 : dateOK parse r = false := by simp [dateOK, hs, hp]
      cases hx : L.all (dateOK parse)
      · rfl
      · have h3 := List.all_eq_true.mp hx r hr
        rw [h4] at h3
        exact absurd h3 Bool.false_ne_true
    simp [gm_run_head, gm_load, h1, h2, gm_to_datetime, hbad]
  · intro parse fs L J h1 h2
    simp [gp_run_head, gp_load, h1, h2]
  · intro parse L r hr
    exact List.mem_map_of_mem (resolveRow parse) hr

/-- C3 witness: the amended theorem applied at a concrete malformed input,
every hypothesis discharged by evaluation. -/
theorem c3_malformed_date_handling_witness :
    gm_run_head sampleParse fsBadDate = .uncaught .valueError ∧
    gp_run_head sampleParse fsBadDate =
      .ok (gp_sort_layoffs (gp_to_datetime sampleParse [rawBadDate]),
        gp_clean_jobs [jobWithSalary]) ∧
    resolveRow sampleParse rawBadDate ∈ gp_to_datetime sampleParse [rawBadDate] := by
  refine ⟨?_, ?_, ?_⟩
  · exact c3_malformed_date_handling.1 sampleParse fsBadDate [rawBadDate]
      [jobWithSalary] rawBadDate "not-a-date" rfl rfl (List.mem_singleton.mpr rfl) rfl rfl
  · exact c3_malformed_date_handling.2.1 sampleParse fsBadDate [rawBadDate]
      [jobWithSalary] rfl rfl
  · exact c3_malformed_date_handling.2.2 sampleParse [rawBadDate] rawBadDate
      (List.mem_singleton.mpr rfl)

/-!
Claim C4.
-/

/-- C4: in both scripts the top-companies aggregate has at most 15 entries,
sorted by summed `total_laid_off` in non-increasing order, and every
grouped sum left out is at most every sum kept; likewise the
layoffs-by-country aggregate with 10 entries. -/
theorem c4_top_n_aggregates (L : List LayoffRow) :
    ((gm_top_companies L).length ≤ 15 ∧
      List.Sorted valGe (gm_top_companies L) ∧
      ∀ p ∈ gm_top_companies L,
        ∀ q ∈ groupSum (fun r => r.company) (fun r => r.total_laid_off) L,
          q ∉ gm_top_companies L → q.2 ≤ p.2) ∧
    ((gm_country_layoffs L).length ≤ 10 ∧
      List.Sorted valGe (gm_country_layoffs L) ∧
      ∀ p ∈ gm_country_layoffs L,
        ∀ q ∈ groupSum (fun r => r.country) (fun r => r.total_laid_off) L,
          q ∉ gm_country_layoffs L → q.2 ≤ p.2) ∧
    ((gp_company_layoffs L).length ≤ 15 ∧
      List.Sorted valGe (gp_company_layoffs L) ∧
      ∀ p ∈ gp_company_layoffs L,
        ∀ q ∈ groupSum (fun r => r.company) (fun r => r.total_laid_off)
            (gp_sort_layoffs L),
          q ∉ gp_company_layoffs L → q.2 ≤ p.2) ∧
    ((gp_country_layoffs L).length ≤ 10 ∧
      List.Sorted valGe (gp_country_layoffs L) ∧
      ∀ p ∈ gp_country_layoffs L,
        ∀ q ∈ groupSum (fun r => r.country) (fun r => r.total_laid_off)
            (gp_sort_layoffs L),
          q ∉ gp_country_layoffs L → q.2 ≤ p.2) := by
  exact ⟨take_sortValsDesc_spec _ 15, take_sortValsDesc_spec _ 10,
    take_sortValsDesc_spec _ 15, take_sortValsDesc_spec _ 10⟩

/-- A one-field layoffs row used to build witness tables. -/
def mkCompanyRow (c : String) : LayoffRow :=
  { company := c, industry := "Tech", country := "United States"
    stage := "Series A", date := some (2023, 1)
    total_laid_off := none, percentage_laid_off := none
    funds_raised := none }

/-- A 16-company layoffs table (every `total_laid_off` missing, so each
grouped sum is 0 and the head-15 truncation drops the last company). -/
def sixteenCompanies : List LayoffRow :=
  [mkCompanyRow "C0", mkCompanyRow "C1", mkCompanyRow "C2", mkCompanyRow "C3",
   mkCompanyRow "C4", mkCompanyRow "C5", mkCompanyRow "C6", mkCompanyRow "C7",
   mkCompanyRow "C8", mkCompanyRow "C9", mkCompanyRow "C10", mkCompanyRow "C11",
   mkCompanyRow "C12", mkCompanyRow "C13", mkCompanyRow "C14", mkCompanyRow "C15"]


/-- C4 witness: the theorem applied to the 16-company table, where the
grouped sum of company `C15` is the one left out of the top 15 and every
membership hypothesis is discharged by evaluation. -/
theorem c4_top_n_aggregates_witness :
    (gm_top_companies sixteenCompanies).length ≤ 15 ∧
    (("C15", (0 : ℚ)) : String × ℚ).2 ≤ (("C0", (0 : ℚ)) : String × ℚ).2 := by
  have h := c4_top_n_aggregates sixteenCompanies
  exact ⟨h.1.1, h.1.2.2 ("C0", 0) (by decide) ("C15", 0) (by decide) (by decide)⟩

/-!
Claim C5.
-/

/-- A jobs row whose raw experience level is outside the canonical set. -/
def jobWizard : JobRecord :=
  { work_year := 2022, job_category := "Data Science", experience_level := "Wizard"
    work_setting := "Remote", company_size := "M", employee_residence := "US"
    salary_in_usd := some 50000 }

/-- C5 counterexample: `project_gm.py`'s cleaning does not constrain the
experience level — a raw value outside the canonical set (here `Wizard`)
survives cleaning unchanged, so not every cleaned record's level lies in
the ordered set. -/
theorem c5_counterexample :
    ¬ ∀ x ∈ gm_clean_jobs [jobWizard], x.experience_level ∈ gm_exp_order := by
  decide

/-- C5 amended: when every raw experience level trims and title-cases to
one of the four canonical labels or to an abbreviation `En`/`Mi`/`Se`/`Ex`,
every record cleaned by `project_gm.py` carries a level in the ordered set
{Entry-Level, Mid-Level, Senior, Executive}; in `project_gp.py` the
categorical conversion instead forces every cleaned level to be one of its
four categories or missing. -/
theorem c5_experience_levels (t : List JobRecord)
    (h : ∀ r ∈ t, clean_labels r.experience_level ∈ gm_exp_order ∨
      clean_labels r.experience_level ∈ ["En", "Mi", "Se", "Ex"]) :
    (∀ x ∈ gm_clean_jobs t, x.experience_level ∈ gm_exp_order) ∧
    (∀ x ∈ gp_clean_jobs t,
      gp_categorical_exp x.experience_level_clean = none ∨
      ∃ lv ∈ gp_exp_order, gp_categorical_exp x.experience_level_clean = some lv) := by
  have hfix : ∀ s ∈ gm_exp_order, gm_exp_replace s = s := by decide
  have habb : ∀ s ∈ (["En", "Mi", "Se", "Ex"] : List String),
      gm_exp_replace s ∈ gm_exp_order := by decide
  constructor
  · intro x hx
    simp only [gm_clean_jobs, List.mem_map, List.mem_filter] at hx
    rcases hx with ⟨r0, ⟨hr0t, _⟩, hx⟩
    have hlv : x.experience_level = gm_exp_replace (clean_labels r0.experience_level) := by
      rw [← hx]
    rcases h r0 hr0t with hc | hc
    · rw [hlv, hfix _ hc]; exact hc
    · rw [hlv]; exact habb _ hc
  · intro x _
    by_cases hmem : x.experience_level_clean ∈ gp_exp_order
    · right
      exact ⟨x.experience_level_clean, hmem, by simp [gp_categorical_exp, hmem]⟩
    · left
      simp [gp_categorical_exp, hmem]

/-- The record `gm_clean_jobs` produces from `jobWithSalary`. -/
def jobWithSalaryCleaned : JobRecord :=
  { work_year := 2022, job_category := "Data Science"
    experience_level := "Entry-Level", work_setting := "Remote"
    company_size := "M", employee_residence := "US"
    salary_in_usd := some 100000 }

/-- C5 witness: the amended theorem applied to a concrete one-row table,
its hypothesis discharged by evaluation. -/
theorem c5_experience_levels_witness :
    jobWithSalaryCleaned.experience_level ∈ gm_exp_order := by
  exact (c5_experience_levels [jobWithSalary] (by decide)).1
    jobWithSalaryCleaned (by decide)

/-!
Claim C6.
-/

/-- C6: both scripts' aggregates are functions of the two input tables
alone — two runs over the same tables, under arbitrarily different
environments (output directories, figure configuration), produce equal
values for every aggregate. -/
theorem c6_determinism (e1 e2 : Env) (L : List LayoffRow) (J : List JobRecord) :
    gm_aggregates e1 L J = gm_aggregates e2 L J ∧
    gp_aggregates e1 L J = gp_aggregates e2 L J :=
  ⟨rfl, rfl⟩

/-!
Claim C7.
-/

/-- A jobs row whose work setting needs both trimming and casing. -/
def jobSpacedSetting : JobRecord :=
  { work_year := 2022, job_category := "Data Science"
    experience_level := "Entry-level", work_setting := " remote "
    company_size := "M", employee_residence := "US"
    salary_in_usd := some 90000 }

/-- C7 counterexample: `project_gp.py` only strips its categorical jobs
columns — on the raw work setting `" remote "` it yields `"remote"`, not
the trimmed-and-title-cased `"Remote"`, so the claim that the cleaner
applies both normalizations fails there. -/
theorem c7_counterexample :
    (gp_clean_jobs [jobSpacedSetting]).map (fun r => r.work_setting_clean) = ["remote"] ∧
    clean_labels " remote " = "Remote" ∧
    ("remote" : String) ≠ "Remote" := by
  refine ⟨by decide, by decide, by decide⟩

/-- C7 amended: `project_gm.py` applies both trimming and title-casing to
each categorical jobs column it normalizes (plus the abbreviation replace
on the experience level), while `project_gp.py` applies trimming only. -/
theorem c7_label_cleaning (t : List JobRecord) :
    ((gm_clean_jobs t).map (fun r => r.job_category) =
      (t.filter (fun r => r.salary_in_usd.isSome)).map
        (fun r => pyTitle (pyStrip r.job_category))) ∧
    ((gm_clean_jobs t).map (fun r => r.experience_level) =
      (t.filter (fun r => r.salary_in_usd.isSome)).map
        (fun r => gm_exp_replace (pyTitle (pyStrip r.experience_level)))) ∧
    ((gm_clean_jobs t).map (fun r => r.work_setting) =
      (t.filter (fun r => r.salary_in_usd.isSome)).map
        (fun r => pyTitle (pyStrip r.work_setting))) ∧
    ((gp_clean_jobs t).map (fun r => r.job_category_clean) =
      (t.filter (fun r => r.salary_in_usd.isSome)).map
        (fun r => pyStrip r.job_category)) ∧
    ((gp_clean_jobs t).map (fun r => r.experience_level_clean) =
      (t.filter (fun r => r.salary_in_usd.isSome)).map
        (fun r => pyStrip r.experience_level)) ∧
    ((gp_clean_jobs t).map (fun r => r.work_setting_clean) =
      (t.filter (fun r => r.salary_in_usd.isSome)).map
        (fun r => pyStrip r.work_setting)) := by
  refine ⟨?_, ?_, ?_, ?_, ?_, ?_⟩ <;>
    simp [gm_clean_jobs, gp_clean_jobs, List.map_map, clean_labels, Function.comp]

/-!
Claim C8.
-/

/-- C8: each script writes exactly as many image files as it defines charts
(filenames are distinct, so no chart save overwrites another) and adds
exactly one slide per defined slide, whatever the file system holds: 13
charts and 18 slides for `project_gm.py`, 16 figures and 20 slides for
`project_gp.py`. -/
theorem c8_output_counts :
    gm_chart_filenames.Nodup ∧ gm_chart_filenames.length = 13 ∧
    (writeAll [] gm_chart_filenames).length = 13 ∧
    gm_slides.length = 18 ∧
    (∀ fs : List String, (gm_build_deck fs).length = 18) ∧
    gp_figure_filenames.Nodup ∧ gp_figure_filenames.length = 16 ∧
    (writeAll [] gp_figure_filenames).length = 16 ∧
    gp_slides.length = 20 ∧
    (∀ figs : List String, (gp_build_deck figs).length = 20) := by
  refine ⟨by decide, rfl, by decide, rfl, ?_, by decide, rfl, by decide, rfl, ?_⟩
  · intro fs; simp [gm_build_deck, gm_slides]
  · intro figs; simp [gp_build_deck, gp_slides]

/-!
Claim C9.
-/

theorem ws_row_sum_one {α : Type} [DecidableEq α] (ws : α → String)
    (C rows : List α) (ss : List String)
    (hss : ss = keysOf ws C) (hsub : ∀ a ∈ rows, a ∈ C) (hne : rows ≠ []) :
    ((ss.map (fun s =>
        ((groupRows ws rows s).length : ℚ) /
          (((ss.map (fun s => (groupRows ws rows s).length)).sum : ℕ) : ℚ))).sum = 1) ∧
    (ss.map (fun s => (groupRows ws rows s).length)).sum = rows.length := by
  have hnd : ss.Nodup := by rw [hss]; exact List.nodup_dedup _
  have hcov : ∀ a ∈ rows, ws a ∈ ss := by
    intro a ha
    rw [hss]
    exact List.mem_dedup.mpr (List.mem_map_of_mem ws (hsub a ha))
  have hpart : (ss.map (fun s => (groupRows ws rows s).length)).sum = rows.length :=
    groupRows_length_partition ws rows ss hnd hcov
  refine ⟨?_, hpart⟩
  have hlen : rows.length ≠ 0 := fun hz => hne (List.length_eq_zero.mp hz)
  have htot : (((ss.map (fun s => (groupRows ws rows s).length)).sum : ℕ) : ℚ) ≠ 0 := by
    rw [hpart]
    exact_mod_cast hlen
  rw [list_sum_map_div]
  rw [div_eq_one_iff_eq htot]
  rw [Nat.cast_list_sum, List.map_map]
  rfl

/-- C9 amended: for every work year present in the cleaned jobs table, the
per-year work-setting proportions sum to exactly 1 in both scripts when
the per-setting counts are divided by the row total in exact arithmetic
(the spec-side comparator), the divisor being that year's total row count;
the float64 proportions the scripts actually store are correctly rounded
quotients whose sum can fall short of 1. -/
theorem c9_ws_proportions (J : List JobRecord) (y : Int) :
    (y ∈ keysOf (fun r => r.work_year) (gm_clean_jobs J) →
      ((gm_ws_year_row_exact J y).map Prod.snd).sum = 1 ∧
      ((keysOf (fun r => r.work_setting) (gm_clean_jobs J)).map (fun s =>
        (groupRows (fun r => r.work_setting)
          (groupRows (fun r => r.work_year) (gm_clean_jobs J) y) s).length)).sum =
        (groupRows (fun r => r.work_year) (gm_clean_jobs J) y).length) ∧
    (y ∈ keysOf (fun r => r.work_year) (gp_clean_jobs J) →
      ((gp_ws_year_row_exact J y).map Prod.snd).sum = 1 ∧
      ((keysOf (fun r => r.work_setting_clean) (gp_clean_jobs J)).map (fun s =>
        (groupRows (fun r => r.work_setting_clean)
          (groupRows (fun r => r.work_year) (gp_clean_jobs J) y) s).length)).sum =
        (groupRows (fun r => r.work_year) (gp_clean_jobs J) y).length) := by
  constructor
  · intro hy
    have hne : groupRows (fun r => r.work_year) (gm_clean_jobs J) y ≠ [] := by
      rcases List.mem_map.mp (List.mem_dedup.mp hy) with ⟨r0, hr0, hr0y⟩
      have : r0 ∈ groupRows (fun r => r.work_year) (gm_clean_jobs J) y := by
        simp [groupRows, List.mem_filter, hr0, hr0y]
      exact List.ne_nil_of_mem this
    have hsub : ∀ a ∈ groupRows (fun r => r.work_year) (gm_clean_jobs J) y,
        a ∈ gm_clean_jobs J := by
      intro a ha
      exact (List.mem_filter.mp ha).1
    have h := ws_row_sum_one (fun r => r.work_setting) (gm_clean_jobs J)
      (groupRows (fun r => r.work_year) (gm_clean_jobs J) y)
      (keysOf (fun r => r.work_setting) (gm_clean_jobs J)) rfl hsub hne
    refine ⟨?_, h.2⟩
    have hrow : ((gm_ws_year_row_exact J y).map Prod.snd) =
        (keysOf (fun r => r.work_setting) (gm_clean_jobs J)).map (fun s =>
          ((groupRows (fun r => r.work_setting)
            (groupRows (fun r => r.work_year) (gm_clean_jobs J) y) s).length : ℚ) /
            (((keysOf (fun r => r.work_setting) (gm_clean_jobs J)).map (fun s =>
              (groupRows (fun r => r.work_setting)
                (groupRows (fun r => r.work_year) (gm_clean_jobs J) y) s).length)).sum : ℕ)) := by
      simp only [gm_ws_year_row_exact, List.map_map]
      rfl
    rw [hrow]
    exact h.1
  · intro hy
    have hne : groupRows (fun r => r.work_year) (gp_clean_jobs J) y ≠ [] := by
      rcases List.mem_map.mp (List.mem_dedup.mp hy) with ⟨r0, hr0, hr0y⟩
      have : r0 ∈ groupRows (fun r => r.work_year) (gp_clean_jobs J) y := by
        simp [groupRows, List.mem_filter, hr0, hr0y]
      exact List.ne_nil_of_mem this
    have hsub : ∀ a ∈ groupRows (fun r => r.work_year) (gp_clean_jobs J) y,
        a ∈ gp_clean_jobs J := by
      intro a ha
      exact (List.mem_filter.mp ha).1
    have h := ws_row_sum_one (fun r => r.work_setting_clean) (gp_clean_jobs J)
      (groupRows (fun r => r.work_year) (gp_clean_jobs J) y)
      (keysOf (fun r => r.work_setting_clean) (gp_clean_jobs J)) rfl hsub hne
    refine ⟨?_, h.2⟩
    have hrow : ((gp_ws_year_row_exact J y).map Prod.snd) =
        (keysOf (fun r => r.work_setting_clean) (gp_clean_jobs J)).map (fun s =>
          ((groupRows (fun r => r.work_setting_clean)
            (groupRows (fun r => r.work_year) (gp_clean_jobs J) y) s).length : ℚ) /
            (((keysOf (fun r => r.work_setting_clean) (gp_clean_jobs J)).map (fun s =>
              (groupRows (fun r => r.work_setting_clean)
                (groupRows (fun r => r.work_year) (gp_clean_jobs J) y) s).length)).sum : ℕ)) := by
      simp only [gp_ws_year_row_exact, List.map_map]
      rfl
    rw [hrow]
    exact h.1

/-- C9 witness: the amended theorem applied to a concrete one-row jobs
table for year 2022, the presence hypothesis discharged by evaluation. -/
theorem c9_ws_proportions_witness :
    ((gm_ws_year_row_exact [jobWithSalary] 2022).map Prod.snd).sum = 1 ∧
    ((gp_ws_year_row_exact [jobWithSalary] 2022).map Prod.snd).sum = 1 := by
  refine ⟨((c9_ws_proportions [jobWithSalary] 2022).1 (by decide)).1,
    ((c9_ws_proportions [jobWithSalary] 2022).2 (by decide)).1⟩

/-- A cleaned-jobs table with one work year and three work settings of one
row each, the smallest table on which the float64 proportions are the
rounded thirds. -/
def threeSettingsJobs : List JobRecord :=
  [{ work_year := 2022, job_category := "Data Science", experience_level := "Senior"
     work_setting := "Remote", company_size := "M", employee_residence := "US"
     salary_in_usd := some 100000 },
   { work_year := 2022, job_category := "Data Science", experience_level := "Senior"
     work_setting := "Hybrid", company_size := "M", employee_residence := "US"
     salary_in_usd := some 100000 },
   { work_year := 2022, job_category := "Data Science", experience_level := "Senior"
     work_setting := "Onsite", company_size := "M", employee_residence := "US"
     salary_in_usd := some 100000 }]

/-- C9 counterexample: on a year with three settings of one row each, the
float64 proportions both scripts store are three copies of the nearest
double to 1/3, whose sum is 1 - 2 ^ (-54), not exactly 1. -/
theorem c9_counterexample :
    ((gm_ws_year_row threeSettingsJobs 2022).map Prod.snd).sum ≠ 1 ∧
    ((gp_ws_year_row threeSettingsJobs 2022).map Prod.snd).sum ≠ 1 := by
  have h13 : div64 1 3 = (6004799503160661 : ℚ) / 18014398509481984 := by
    norm_num [div64, Nat.log2]
  have hgm : gm_ws_year_row threeSettingsJobs 2022 =
      [("Remote", div64 1 3), ("Hybrid", div64 1 3), ("Onsite", div64 1 3)] := rfl
  have hgp : gp_ws_year_row threeSettingsJobs 2022 =
      [("Remote", div64 1 3), ("Hybrid", div64 1 3), ("Onsite", div64 1 3)] := rfl
  constructor
  · rw [hgm]
    simp only [List.map_cons, List.map_nil, List.sum_cons, List.sum_nil, h13]
    norm_num
  · rw [hgp]
    simp only [List.map_cons, List.map_nil, List.sum_cons, List.sum_nil, h13]
    norm_num

/-!
Claim C10.
-/

/-- C10: layoff records with a missing `total_laid_off` are not dropped
before grouped summation — every record's key yields a group, a
missing-total record contributes nothing to its group's sum, and a group
all of whose records lack `total_laid_off` appears in the sum aggregate
with value 0 instead of being absent; in both scripts. -/
theorem c10_missing_total_in_sums :
    (∀ {κ : Type} [DecidableEq κ] (key : LayoffRow → κ) (L : List LayoffRow)
      (r : LayoffRow), r ∈ L →
      key r ∈ (groupSum key (fun x => x.total_laid_off) L).map Prod.fst) ∧
    (∀ {κ : Type} [DecidableEq κ] (key : LayoffRow → κ) (L : List LayoffRow)
      (r : LayoffRow), r.total_laid_off = none →
      ((groupRows key (r :: L) (key r)).filterMap (fun x => x.total_laid_off)).sum =
        ((groupRows key L (key r)).filterMap (fun x => x.total_laid_off)).sum) ∧
    (∀ {κ : Type} [DecidableEq κ] (key : LayoffRow → κ) (L : List LayoffRow)
      (k : κ), k ∈ L.map key →
      (∀ r ∈ L, key r = k → r.total_laid_off = none) →
      (k, (0 : ℚ)) ∈ groupSum key (fun x => x.total_laid_off) L) ∧
    (∀ (L : List LayoffRow) (k : String), k ∈ L.map (fun x => x.company) →
      (∀ r ∈ L, r.company = k → r.total_laid_off = none) →
      (k, (0 : ℚ)) ∈ groupSum (fun x => x.company) (fun x => x.total_laid_off)
        (gp_sort_layoffs L)) := by
  have keyMem : ∀ {κ : Type} [DecidableEq κ] (key : LayoffRow → κ)
      (L : List LayoffRow) (k : κ), k ∈ L.map key →
      (∀ r ∈ L, key r = k → r.total_laid_off = none) →
      (k, (0 : ℚ)) ∈ groupSum key (fun x => x.total_laid_off) L := by
    intro κ _ key L k hk hall
    have hkeys : k ∈ keysOf key L := List.mem_dedup.mpr hk
    have hzero : ((groupRows key L k).filterMap (fun x => x.total_laid_off)).sum = 0 := by
      have hnil : (groupRows key L k).filterMap (fun x => x.total_laid_off) = [] := by
        rw [List.filterMap_eq_nil_iff]
        intro a ha
        rcases List.mem_filter.mp ha with ⟨haL, hak⟩
        exact hall a haL (of_decide_eq_true hak)
      rw [hnil]; rfl
    exact List.mem_map.mpr ⟨k, hkeys, by simp [hzero]⟩
  refine ⟨?_, ?_, fun key L k hk hall => keyMem key L k hk hall, ?_⟩
  · intro κ _ key L r hr
    have hkeys : key r ∈ keysOf key L :=
      List.mem_dedup.mpr (List.mem_map_of_mem key hr)
    exact List.mem_map.mpr
      ⟨(key r, ((groupRows key L (key r)).filterMap (fun x => x.total_laid_off)).sum),
        List.mem_map.mpr ⟨key r, hkeys, rfl⟩, rfl⟩
  · intro κ _ key L r h
    simp [groupRows, List.filter_cons, List.filterMap_cons, h]
  · intro L k hk hall
    have hperm := List.perm_insertionSort
      (fun a b : LayoffRow => dateLe a.date b.date) L
    refine keyMem (fun x => x.company) (gp_sort_layoffs L) k ?_ ?_
    · rcases List.mem_map.mp hk with ⟨r, hr, hrk⟩
      exact List.mem_map.mpr ⟨r, (hperm.mem_iff).mpr hr, hrk⟩
    · intro r hr hrk
      exact hall r ((hperm.mem_iff).mp hr) hrk

/-- C10 witness: the theorem applied to the 16-company table, all of whose
totals are missing, with every hypothesis discharged by evaluation. -/
theorem c10_missing_total_in_sums_witness :
    ("C0", (0 : ℚ)) ∈ groupSum (fun x => x.company) (fun x => x.total_laid_off)
      sixteenCompanies ∧
    ("C0", (0 : ℚ)) ∈ groupSum (fun x => x.company) (fun x => x.total_laid_off)
      (gp_sort_layoffs sixteenCompanies) ∧
    ((groupRows (fun x => x.company) (mkCompanyRow "C0" :: sixteenCompanies)
        "C0").filterMap (fun x => x.total_laid_off)).sum =
      ((groupRows (fun x => x.company) sixteenCompanies
        "C0").filterMap (fun x => x.total_laid_off)).sum := by
  refine ⟨c10_missing_total_in_sums.2.2.1 (fun x => x.company) sixteenCompanies
      "C0" (by decide) (by decide),
    c10_missing_total_in_sums.2.2.2 sixteenCompanies "C0" (by decide) (by decide),
    c10_missing_total_in_sums.2.1 (fun x => x.company) sixteenCompanies
      (mkCompanyRow "C0") rfl⟩
